import Mathlib

/-!
Shallow embedding of the Room-booking service core
(app/routers/bookings.py, app/utils/scheduler.py, app/models/*.py,
app/schemas/booking.py), together with theorems checking the
natural-language specification of the repository against the code.

Times are modelled as natural numbers counting microseconds on the single
canonical clock assumed by the spec; Python `datetime` component accessors
(`minute`, `second`, `microsecond`) and `timedelta` arithmetic translate to
arithmetic on that count.
-/

namespace RoomBooking

def MICROS_PER_SECOND : Nat := 1000000

def MICROS_PER_MINUTE : Nat := 60000000

def MICROS_PER_HOUR : Nat := 3600000000

def MICROS_PER_DAY : Nat := 86400000000

/-- `datetime.minute` of an instant measured in microseconds. -/
def minuteOf (t : Nat) : Nat := t / MICROS_PER_MINUTE % 60

/-- `datetime.second` of an instant measured in microseconds. -/
def secondOf (t : Nat) : Nat := t / MICROS_PER_SECOND % 60

/-- `datetime.microsecond` of an instant measured in microseconds. -/
def microsecondOf (t : Nat) : Nat := t % MICROS_PER_SECOND

/-- A room row (app/models/room.py): id, name, capacity, optional location. -/
structure Room where
  id : Nat
  name : String
  capacity : Int
  location : Option String
deriving Repr, DecidableEq

/-- A booking record as the routers, tests and the `BookingResponse` schema
use it: id, room_id, user_id, start_time, end_time, purpose.  Note that the
ORM model `app/models/booking.py` itself declares no `end_time` column; the
list `bookingTableColumns` below records the columns the model actually
declares. -/
structure Booking where
  id : Nat
  room_id : Nat
  user_id : Nat
  start_time : Nat
  end_time : Nat
  purpose : Option String
deriving Repr, DecidableEq

/-- The columns actually declared by the `Booking` ORM model
(app/models/booking.py lines 9-13). -/
def bookingTableColumns : List String :=
  ["id", "room_id", "user_id", "start_time", "purpose"]

/-- The database snapshot a request operates on: the rooms table and the
bookings table. -/
structure DB where
  rooms : List Room
  bookings : List Booking
deriving Repr, DecidableEq

/-- The dict returned by `get_current_user` (app/utils/auth.py line 79). -/
structure User where
  id : Nat
  username : String
deriving Repr, DecidableEq

/-- Request body of POST /bookings/ (schemas `BookingCreate`). -/
structure BookingCreate where
  room_id : Nat
  start_time : Nat
  purpose : Option String
  required_capacity : Int
deriving Repr, DecidableEq

/-- Request body of PUT /bookings/id (schemas `BookingUpdate`); `none`
means the field was not supplied. -/
structure BookingUpdate where
  room_id : Option Nat
  start_time : Option Nat
  purpose : Option String
deriving Repr, DecidableEq

/-- The error responses the booking endpoints raise. -/
inductive ApiError where
  | roomNotFound
  | capacityInsufficient
  | invalidStartTime
  | slotConflict
  | bookingNotFound
  | notAuthorized
  | noSuitableRoom
  | invalidDuration
deriving Repr, DecidableEq

/-- HTTP status code of each error response, as raised in
app/routers/bookings.py. -/
def ApiError.statusCode : ApiError → Nat
  | roomNotFound => 404
  | capacityInsufficient => 400
  | invalidStartTime => 400
  | slotConflict => 400
  | bookingNotFound => 404
  | notAuthorized => 403
  | noSuitableRoom => 404
  | invalidDuration => 400

/-- Python truthiness of `Optional[int]`: `None` and `0` are falsy. -/
def natTruthy : Option Nat → Bool
  | none => false
  | some v => v != 0

/-- Python `a or b` for `a : Optional[int]`: falls back on `None` and on `0`. -/
def pyOrNat : Option Nat → Nat → Nat
  | none, d => d
  | some v, d => if v == 0 then d else v

/-- The SQL filter of the overlap query on the create path
(app/routers/bookings.py lines 66-70):
room matches, `Booking.start_time < end_time`, `Booking.end_time > start_time`. -/
def createOverlapFilter (room_id : Nat) (start_time end_time : Nat) (b : Booking) : Bool :=
  b.room_id == room_id && decide (b.start_time < end_time) && decide (b.end_time > start_time)

/-- The SQL filter of the overlap query on the update path
(app/routers/bookings.py lines 184-189): like the create filter but
excluding the booking being updated. -/
def updateOverlapFilter (room_id booking_id : Nat) (new_start new_end : Nat) (b : Booking) : Bool :=
  b.room_id == room_id && b.id != booking_id &&
    decide (b.start_time < new_end) && decide (b.end_time > new_start)

/-- The SQL filter of the conflict count in `find_optimal_room`
(app/utils/scheduler.py lines 22-26): room matches,
`Booking.start_time < end_time`, `Booking.start_time >= start_time - 1 hour`.
The subtraction happens on Python datetimes, so it is carried out in `Int`. -/
def schedulerConflictFilter (room_id : Nat) (start_time end_time : Nat) (b : Booking) : Bool :=
  b.room_id == room_id && decide (b.start_time < end_time) &&
    decide ((start_time : Int) - (MICROS_PER_HOUR : Int) ≤ (b.start_time : Int))

/-- POST /bookings/ (app/routers/bookings.py `create_booking`).  Returns the
(possibly updated) database together with the response; every error path
leaves the database unchanged.  `new_id` stands for the autoincremented
primary key the insert would produce. -/
def create_booking (db : DB) (current_user : User) (booking : BookingCreate)
    (new_id : Nat) : DB × Except ApiError Booking :=
  match db.rooms.find? (fun r => r.id == booking.room_id) with
  | none => (db, Except.error ApiError.roomNotFound)
  | some room =>
    if room.capacity < booking.required_capacity then
      (db, Except.error ApiError.capacityInsufficient)
    else if minuteOf booking.start_time ≠ 0 ∨ secondOf booking.start_time ≠ 0 then
      (db, Except.error ApiError.invalidStartTime)
    else
      let end_time := booking.start_time + MICROS_PER_HOUR
      if (db.bookings.find? (createOverlapFilter booking.room_id booking.start_time end_time)).isSome then
        (db, Except.error ApiError.slotConflict)
      else
        let db_booking : Booking :=
          { id := new_id, room_id := booking.room_id, user_id := current_user.id,
            start_time := booking.start_time, end_time := end_time,
            purpose := booking.purpose }
        ({ db with bookings := db.bookings ++ [db_booking] }, Except.ok db_booking)

/-- Replace the first list element satisfying `p` (the ORM mutates the one
row the `first()` query returned). -/
def replaceFirst (p : Booking → Bool) (b' : Booking) : List Booking → List Booking
  | [] => []
  | b :: rest => if p b then b' :: rest else b :: replaceFirst p b' rest

/-- Remove the first list element satisfying `p` (`db.delete` removes the
one row the `first()` query returned). -/
def removeFirst (p : Booking → Bool) : List Booking → List Booking
  | [] => []
  | b :: rest => if p b then rest else b :: removeFirst p rest

/-- The tail of `update_booking` after all checks passed
(app/routers/bookings.py lines 194-203): `setattr` applies every supplied
field, then `start_time` and `end_time` are overwritten with the recomputed
interval. -/
def applyBookingUpdate (db : DB) (booking_id : Nat) (db_booking : Booking)
    (booking_update : BookingUpdate) (new_start_time new_end_time : Nat) :
    DB × Except ApiError Booking :=
  let updated : Booking :=
    { db_booking with
      room_id := booking_update.room_id.getD db_booking.room_id,
      purpose := match booking_update.purpose with
        | some p => some p
        | none => db_booking.purpose,
      start_time := new_start_time,
      end_time := new_end_time }
  ({ db with bookings := replaceFirst (fun b => b.id == booking_id) updated db.bookings },
    Except.ok updated)

/-- PUT /bookings/id (app/routers/bookings.py `update_booking`).
Mirrors the source: load and ownership check; effective start via Python
`or`; validation of minute/second; the overlap check runs only under
`if booking_update.room_id or booking_update.start_time` (Python
truthiness, so a supplied room id of 0 does not trigger it), against the
room id computed by the same `or`. -/
def update_booking (db : DB) (current_user : User) (booking_id : Nat)
    (booking_update : BookingUpdate) : DB × Except ApiError Booking :=
  match db.bookings.find? (fun b => b.id == booking_id) with
  | none => (db, Except.error ApiError.bookingNotFound)
  | some db_booking =>
    if db_booking.user_id ≠ current_user.id then
      (db, Except.error ApiError.notAuthorized)
    else
      let new_start_time := booking_update.start_time.getD db_booking.start_time
      let new_end_time := new_start_time + MICROS_PER_HOUR
      if minuteOf new_start_time ≠ 0 ∨ secondOf new_start_time ≠ 0 then
        (db, Except.error ApiError.invalidStartTime)
      else if natTruthy booking_update.room_id || booking_update.start_time.isSome then
        let room_id := pyOrNat booking_update.room_id db_booking.room_id
        match db.rooms.find? (fun r => r.id == room_id) with
        | none => (db, Except.error ApiError.roomNotFound)
        | some _ =>
          if (db.bookings.find? (updateOverlapFilter room_id booking_id new_start_time new_end_time)).isSome then
            (db, Except.error ApiError.slotConflict)
          else
            applyBookingUpdate db booking_id db_booking booking_update new_start_time new_end_time
      else
        applyBookingUpdate db booking_id db_booking booking_update new_start_time new_end_time

/-- DELETE /bookings/id (app/routers/bookings.py `delete_booking`). -/
def delete_booking (db : DB) (current_user : User) (booking_id : Nat) :
    DB × Except ApiError Unit :=
  match db.bookings.find? (fun b => b.id == booking_id) with
  | none => (db, Except.error ApiError.bookingNotFound)
  | some db_booking =>
    if db_booking.user_id ≠ current_user.id then
      (db, Except.error ApiError.notAuthorized)
    else
      ({ db with bookings := removeFirst (fun b => b.id == booking_id) db.bookings },
        Except.ok ())

/-- GET /bookings/ (app/routers/bookings.py `get_bookings`).  The endpoint
declares no authentication dependency, so the requester — modelled here as
an optional authenticated user, `none` for an anonymous caller — never
enters the computation. -/
def get_bookings (_requester : Option User) (db : DB) (skip limit : Nat) : List Booking :=
  (db.bookings.drop skip).take limit

/-- GET /bookings/id (app/routers/bookings.py `get_booking`).  Like
`get_bookings`, declares no authentication dependency. -/
def get_booking (_requester : Option User) (db : DB) (booking_id : Nat) :
    Except ApiError Booking :=
  match db.bookings.find? (fun b => b.id == booking_id) with
  | none => Except.error ApiError.bookingNotFound
  | some b => Except.ok b

/-- The selection loop of `find_optimal_room` (app/utils/scheduler.py lines
18-31).  The source tracks `min_occupancy` alongside `optimal_room`; the two
are updated in lockstep (`min_occupancy` is `inf` exactly while
`optimal_room` is `None`, and `optimal_room.capacity` afterwards), so the
accumulator carries `optimal_room` alone and compares against its
capacity. -/
def find_optimal_room_loop (db : DB) (start_time end_time : Nat) :
    List Room → Option Room → Option Room
  | [], optimal_room => optimal_room
  | room :: rest, optimal_room =>
    let conflicts := db.bookings.countP (schedulerConflictFilter room.id start_time end_time)
    let take : Bool := conflicts == 0 &&
      (match optimal_room with
        | none => true
        | some cur => decide (room.capacity < cur.capacity))
    if take then find_optimal_room_loop db start_time end_time rest (some room)
    else find_optimal_room_loop db start_time end_time rest optimal_room

/-- app/utils/scheduler.py `find_optimal_room`: validate grid alignment
(raising `ValueError`, modelled as the error string), filter rooms by
capacity, then scan for the smallest-capacity room whose conflict count is
zero. -/
def find_optimal_room (db : DB) (start_time end_time : Nat) (required_capacity : Int) :
    Except String (Option Room) :=
  if minuteOf start_time ≠ 0 ∨ secondOf start_time ≠ 0 ∨ microsecondOf start_time ≠ 0 then
    Except.error "Start time must be at the beginning of an hour (e.g., 13:00:00)"
  else
    let available_rooms := db.rooms.filter (fun r => decide (r.capacity ≥ required_capacity))
    Except.ok (find_optimal_room_loop db start_time end_time available_rooms none)

/-- The SQL filter of the bookings query in `get_available_slots`
(app/routers/bookings.py lines 329-333): room matches and the booking lies
inside the day window. -/
def slotsWindowFilter (room_id : Nat) (day_start day_end : Nat) (b : Booking) : Bool :=
  b.room_id == room_id && decide (day_start ≤ b.start_time) && decide (b.end_time ≤ day_end)

/-- Insert a booking into a list sorted by `start_time`. -/
def insertByStart (b : Booking) : List Booking → List Booking
  | [] => [b]
  | c :: rest =>
    if b.start_time ≤ c.start_time then b :: c :: rest else c :: insertByStart b rest

/-- `order_by(Booking.start_time)`: sort the retrieved bookings by start
time ascending. -/
def sortByStart : List Booking → List Booking
  | [] => []
  | b :: rest => insertByStart b (sortByStart rest)

/-- One `while current_time + duration_delta <= stop` loop of
`get_available_slots`, emitting slots and returning the advanced cursor.
The fuel argument only bounds the iteration count; since the endpoint
rejects non-positive durations, `delta ≥ 1` holds at every call and the
fuel supplied by `emitSlots` is never exhausted before the loop condition
fails. -/
def emitSlotsFuel : Nat → Nat → Nat → Nat → List (Nat × Nat) × Nat
  | 0, _, current_time, _ => ([], current_time)
  | fuel + 1, delta, current_time, stop =>
    if 0 < delta ∧ current_time + delta ≤ stop then
      let r := emitSlotsFuel fuel delta (current_time + delta) stop
      ((current_time, current_time + delta) :: r.1, r.2)
    else ([], current_time)

/-- Emit every full slot fitting before `stop`, starting the cursor at
`current_time`; returns the emitted slots and the final cursor.  When
`delta ≥ 1` the loop runs at most `(stop - current_time) / delta` times, so
one more unit of fuel than that is always enough. -/
def emitSlots (delta current_time stop : Nat) : List (Nat × Nat) × Nat :=
  emitSlotsFuel ((stop - current_time) / delta + 1) delta current_time stop

/-- The sweep of `get_available_slots` (app/routers/bookings.py lines
340-353): for each booking in start order, emit the slots fitting before
its start and advance the cursor to `max(cursor, booking.end_time)`; after
the last booking, emit the slots fitting before `day_end`. -/
def sweepSlots (delta day_end : Nat) : Nat → List Booking → List (Nat × Nat)
  | current_time, [] => (emitSlots delta current_time day_end).1
  | current_time, b :: rest =>
    let e := emitSlots delta current_time b.start_time
    e.1 ++ sweepSlots delta day_end (max e.2 b.end_time) rest

/-- GET /bookings/available_slots/ (app/routers/bookings.py
`get_available_slots`).  The day window is hardcoded to 8 AM - 6 PM (ten
hours); `day` counts days since the clock's origin, `duration` is in
minutes. -/
def get_available_slots (_current_user : User) (db : DB) (room_id : Nat)
    (day : Nat) (duration : Int) : Except ApiError (List (Nat × Nat)) :=
  if duration ≤ 0 then Except.error ApiError.invalidDuration
  else
    match db.rooms.find? (fun r => r.id == room_id) with
    | none => Except.error ApiError.roomNotFound
    | some _ =>
      let day_start := day * MICROS_PER_DAY + 8 * MICROS_PER_HOUR
      let day_end := day_start + 10 * MICROS_PER_HOUR
      let bookings := sortByStart (db.bookings.filter (slotsWindowFilter room_id day_start day_end))
      Except.ok (sweepSlots (duration.toNat * MICROS_PER_MINUTE) day_end day_start bookings)

/-! ## Concrete witness data -/

def room1 : Room := ⟨1, "A", 10, none⟩

def user7 : User := ⟨7, "u"⟩

def t9 : Nat := 9 * MICROS_PER_HOUR

def t10 : Nat := 10 * MICROS_PER_HOUR

def t11 : Nat := 11 * MICROS_PER_HOUR

def t12 : Nat := 12 * MICROS_PER_HOUR

def bkA : Booking := ⟨1, 1, 7, t9, t10, none⟩

def bkB : Booking := ⟨2, 1, 7, t11, t12, none⟩

def dbW : DB := ⟨[room1], [bkA]⟩

def dbW2 : DB := ⟨[room1], [bkA, bkB]⟩

def room2 : Room := ⟨2, "B", 5, none⟩

def dbW3 : DB := ⟨[room1, room2], [bkA]⟩

def dbC2 : DB := ⟨[room2], [⟨1, 2, 7, t9, t10, none⟩]⟩

/-- A stored booking whose start time is not on the hour (minute 30). -/
def bkMis : Booking := ⟨1, 1, 7, t9 + 30 * MICROS_PER_MINUTE, t10 + 30 * MICROS_PER_MINUTE, none⟩

def dbMis : DB := ⟨[room1], [bkMis]⟩

/-- A booking from 10:00 to 12:00 on day 0 — it covers the third and
fourth hour slot of the 8 AM - 6 PM window. -/
def bkMid : Booking := ⟨1, 1, 7, 36000000000, 43200000000, none⟩

def dbS : DB := ⟨[room1], []⟩

def dbS4 : DB := ⟨[room1], [bkMid]⟩

/-- The ten hour slots of the 8 AM - 6 PM window of day 0. -/
def tenSlots : List (Nat × Nat) :=
  [(28800000000, 32400000000), (32400000000, 36000000000),
   (36000000000, 39600000000), (39600000000, 43200000000),
   (43200000000, 46800000000), (46800000000, 50400000000),
   (50400000000, 54000000000), (54000000000, 57600000000),
   (57600000000, 61200000000), (61200000000, 64800000000)]

/-- `tenSlots` with the 10:00-11:00 and 11:00-12:00 slots removed. -/
def eightSlots : List (Nat × Nat) :=
  [(28800000000, 32400000000), (32400000000, 36000000000),
   (43200000000, 46800000000), (46800000000, 50400000000),
   (50400000000, 54000000000), (54000000000, 57600000000),
   (57600000000, 61200000000), (61200000000, 64800000000)]

/-! ## Theorems -/

/-- Claim C1: a create request (past the room, capacity and alignment
gates) and an update request that changes room or start time (past the
load, ownership, alignment and room-lookup gates) report a conflict and
reject the request exactly when some existing booking in the target room —
excluding, on update, the booking being updated — satisfies the half-open
intersection test `s1 < e2` and `s2 < e1` against the candidate interval
`[start, start + 1h)`; consequently a booking ending exactly at the
candidate's start, or starting exactly at its end, is not a conflict. -/
theorem create_update_conflict_iff :
    (∀ (db : DB) (u : User) (req : BookingCreate) (new_id : Nat) (room : Room),
      db.rooms.find? (fun r => r.id == req.room_id) = some room →
      ¬room.capacity < req.required_capacity →
      minuteOf req.start_time = 0 → secondOf req.start_time = 0 →
      ((create_booking db u req new_id).2 = Except.error ApiError.slotConflict ↔
        ∃ b ∈ db.bookings, b.room_id = req.room_id ∧
          b.start_time < req.start_time + MICROS_PER_HOUR ∧
          req.start_time < b.end_time)) ∧
    (∀ (db : DB) (u : User) (booking_id : Nat) (upd : BookingUpdate)
        (bk : Booking) (room : Room),
      db.bookings.find? (fun b => b.id == booking_id) = some bk →
      bk.user_id = u.id →
      upd.room_id ≠ some 0 →
      ((∃ r, upd.room_id = some r ∧ r ≠ bk.room_id) ∨
        (∃ t, upd.start_time = some t ∧ t ≠ bk.start_time)) →
      minuteOf (upd.start_time.getD bk.start_time) = 0 →
      secondOf (upd.start_time.getD bk.start_time) = 0 →
      db.rooms.find? (fun r => r.id == pyOrNat upd.room_id bk.room_id) = some room →
      ((update_booking db u booking_id upd).2 = Except.error ApiError.slotConflict ↔
        ∃ b ∈ db.bookings, b.id ≠ booking_id ∧
          b.room_id = pyOrNat upd.room_id bk.room_id ∧
          b.start_time < (upd.start_time.getD bk.start_time) + MICROS_PER_HOUR ∧
          (upd.start_time.getD bk.start_time) < b.end_time)) := by
  constructor
  · intro db u req new_id room hroom hcap hmin hsec
    have halign : ¬(minuteOf req.start_time ≠ 0 ∨ secondOf req.start_time ≠ 0) := by
      simp [hmin, hsec]
    simp only [create_booking, hroom, if_neg hcap, if_neg halign]
    by_cases hov : (db.bookings.find?
        (createOverlapFilter req.room_id req.start_time (req.start_time + MICROS_PER_HOUR))).isSome
    · simp only [if_pos hov]
      simp only [List.find?_isSome, createOverlapFilter, Bool.and_eq_true,
        beq_iff_eq, decide_eq_true_eq, gt_iff_lt, and_assoc] at hov
      constructor
      · intro _
        obtain ⟨b, hb, h1, h2, h3⟩ := hov
        exact ⟨b, hb, h1, h2, h3⟩
      · intro _
        first
        | rfl
        | trivial
    · simp only [if_neg hov]
      simp only [List.find?_isSome, createOverlapFilter, Bool.and_eq_true,
        beq_iff_eq, decide_eq_true_eq, gt_iff_lt, and_assoc, not_exists] at hov
      constructor
      · intro h
        exact absurd h (by simp)
      · intro ⟨b, hb, h1, h2, h3⟩
        exact absurd ⟨hb, h1, h2, h3⟩ (hov b)
  · intro db u booking_id upd bk room hfind howner hnz hchange hmin hsec hroom
    have howner' : ¬bk.user_id ≠ u.id := by simp [howner]
    have halign : ¬(minuteOf (upd.start_time.getD bk.start_time) ≠ 0 ∨
        secondOf (upd.start_time.getD bk.start_time) ≠ 0) := by simp [hmin, hsec]
    have hguard : (natTruthy upd.room_id || upd.start_time.isSome) = true := by
      rcases hchange with ⟨r, hr, _⟩ | ⟨t, ht, _⟩
      · have : r ≠ 0 := fun h => hnz (h ▸ hr)
        simp [natTruthy, hr, this]
      · simp [ht]
    simp only [update_booking, hfind, if_neg howner', if_neg halign, hguard,
      if_pos, hroom]
    by_cases hov : (db.bookings.find? (updateOverlapFilter
        (pyOrNat upd.room_id bk.room_id) booking_id
        (upd.start_time.getD bk.start_time)
        (upd.start_time.getD bk.start_time + MICROS_PER_HOUR))).isSome
    · simp only [if_pos hov]
      simp only [List.find?_isSome, updateOverlapFilter, Bool.and_eq_true,
        beq_iff_eq, bne_iff_ne, decide_eq_true_eq, gt_iff_lt, and_assoc] at hov
      constructor
      · intro _
        obtain ⟨b, hb, h1, h2, h3, h4⟩ := hov
        exact ⟨b, hb, h2, h1, h3, h4⟩
      · intro _
        first
        | rfl
        | trivial
    · simp only [if_neg hov]
      simp only [List.find?_isSome, updateOverlapFilter, Bool.and_eq_true,
        beq_iff_eq, bne_iff_ne, decide_eq_true_eq, gt_iff_lt, and_assoc,
        not_exists] at hov
      constructor
      · intro h
        exact absurd h (by simp [applyBookingUpdate])
      · intro ⟨b, hb, h1, h2, h3, h4⟩
        exact absurd ⟨hb, h2, h1, h3, h4⟩ (hov b)

/-- Witness for C1: on a concrete database, creating over an existing
booking and moving another booking onto it both report the conflict. -/
theorem create_update_conflict_iff_witness :
    (create_booking dbW user7 ⟨1, t9, none, 1⟩ 2).2 = Except.error ApiError.slotConflict ∧
    (update_booking dbW2 user7 2 ⟨none, some t9, none⟩).2 = Except.error ApiError.slotConflict := by
  constructor
  · exact (create_update_conflict_iff.1 dbW user7 ⟨1, t9, none, 1⟩ 2 room1
      (by decide) (by decide) (by decide) (by decide)).mpr
      ⟨bkA, by simp [dbW], by decide, by decide, by decide⟩
  · exact (create_update_conflict_iff.2 dbW2 user7 2 ⟨none, some t9, none⟩ bkB room1
      (by decide) (by decide) (by decide)
      (Or.inr ⟨t9, rfl, by decide⟩) (by decide) (by decide) (by decide)).mpr
      ⟨bkA, by simp [dbW2], by decide, by decide, by decide, by decide⟩

/-- Helper: if at most one list element satisfies `p`, removing the first
match leaves no match behind. -/
theorem find?_removeFirst_of_countP_le_one (p : Booking → Bool) (l : List Booking)
    (h : l.countP p ≤ 1) : (removeFirst p l).find? p = none := by
  induction l with
  | nil => simp [removeFirst]
  | cons b rest ih =>
    by_cases hb : p b
    · simp only [removeFirst, if_pos hb]
      rw [List.find?_eq_none]
      intro a ha hpa
      have hc : rest.countP p = 0 := by
        have hcc : (b :: rest).countP p = rest.countP p + 1 := by
          simp [List.countP_cons, hb]
        omega
      rw [List.countP_eq_zero] at hc
      exact hc a ha hpa
    · simp only [removeFirst, if_neg hb]
      rw [List.find?_cons_of_neg _ (by simpa using hb)]
      apply ih
      simpa [List.countP_cons, hb] using h

/-- Claim C7: a create request whose required capacity exceeds the target
room's capacity fails with the capacity error, and the returned state is
the unchanged input database — no booking is created. -/
theorem create_insufficient_capacity (db : DB) (u : User) (req : BookingCreate)
    (new_id : Nat) (room : Room)
    (hroom : db.rooms.find? (fun r => r.id == req.room_id) = some room)
    (hcap : room.capacity < req.required_capacity) :
    create_booking db u req new_id = (db, Except.error ApiError.capacityInsufficient) := by
  simp only [create_booking, hroom, if_pos hcap]

/-- Witness for C7: room of capacity 10, request requiring capacity 20. -/
theorem create_insufficient_capacity_witness :
    create_booking dbW user7 ⟨1, t9, none, 20⟩ 2 =
      (dbW, Except.error ApiError.capacityInsufficient) :=
  create_insufficient_capacity dbW user7 ⟨1, t9, none, 20⟩ 2 room1 (by decide) (by decide)

/-- Claim C8: `update_booking` never fails with the capacity error for any
input, and an update that supplies an existing (nonzero) room id re-runs
the overlap check against that new room: an overlapping booking there makes
the update fail with the conflict error. -/
theorem update_skips_capacity_check :
    (∀ (db : DB) (u : User) (booking_id : Nat) (upd : BookingUpdate),
      (update_booking db u booking_id upd).2 ≠ Except.error ApiError.capacityInsufficient) ∧
    (∀ (db : DB) (u : User) (booking_id : Nat) (upd : BookingUpdate)
        (bk : Booking) (r : Nat) (room : Room),
      db.bookings.find? (fun b => b.id == booking_id) = some bk →
      bk.user_id = u.id →
      upd.room_id = some r → r ≠ 0 →
      minuteOf (upd.start_time.getD bk.start_time) = 0 →
      secondOf (upd.start_time.getD bk.start_time) = 0 →
      db.rooms.find? (fun rm => rm.id == r) = some room →
      (∃ b ∈ db.bookings, b.id ≠ booking_id ∧ b.room_id = r ∧
        b.start_time < (upd.start_time.getD bk.start_time) + MICROS_PER_HOUR ∧
        (upd.start_time.getD bk.start_time) < b.end_time) →
      (update_booking db u booking_id upd).2 = Except.error ApiError.slotConflict) := by
  constructor
  · intro db u booking_id upd
    unfold update_booking
    repeat' (first | simp [applyBookingUpdate] | split)
  · intro db u booking_id upd bk r room hfind howner hupd hr0 hmin hsec hroom hex
    have howner' : ¬bk.user_id ≠ u.id := by simp [howner]
    have halign : ¬(minuteOf (upd.start_time.getD bk.start_time) ≠ 0 ∨
        secondOf (upd.start_time.getD bk.start_time) ≠ 0) := by simp [hmin, hsec]
    have hguard : (natTruthy upd.room_id || upd.start_time.isSome) = true := by
      simp [natTruthy, hupd, hr0]
    have hpy : pyOrNat upd.room_id bk.room_id = r := by
      simp [pyOrNat, hupd, hr0]
    have hov : (db.bookings.find? (updateOverlapFilter r booking_id
        (upd.start_time.getD bk.start_time)
        (upd.start_time.getD bk.start_time + MICROS_PER_HOUR))).isSome = true := by
      rw [List.find?_isSome]
      obtain ⟨b, hb, h1, h2, h3, h4⟩ := hex
      exact ⟨b, hb, by simp [updateOverlapFilter, h1, h2, h3, h4]⟩
    simp only [update_booking, hfind, if_neg howner', if_neg halign, hguard,
      if_pos, hpy, hroom, hov, if_true]

/-- Witness for C8: moving booking 2 into the (nonexistent-capacity-check)
room 1 where booking 1 overlaps reports the conflict, and a purpose-only
update never reports a capacity error. -/
theorem update_skips_capacity_check_witness :
    (update_booking dbW2 user7 2 ⟨none, none, some "x"⟩).2 ≠
      Except.error ApiError.capacityInsufficient ∧
    (update_booking dbW2 user7 2 ⟨some 1, some t9, none⟩).2 =
      Except.error ApiError.slotConflict := by
  constructor
  · exact update_skips_capacity_check.1 dbW2 user7 2 ⟨none, none, some "x"⟩
  · exact update_skips_capacity_check.2 dbW2 user7 2 ⟨some 1, some t9, none⟩ bkB 1 room1
      (by decide) (by decide) rfl (by decide) (by decide) (by decide) (by decide)
      ⟨bkA, by simp [dbW2], by decide, by decide, by decide, by decide⟩

/-- Claim C9: deleting an existing booking as a non-owner fails with the
authorization error (an error distinct from not-found, with a distinct
HTTP status) and leaves the database unchanged, the booking still
retrievable; deleting as the owner removes the booking, and — provided
booking ids are unique, as primary keys are — a subsequent get of the same
id returns not-found. -/
theorem delete_owner_only :
    (∀ (db : DB) (u : User) (booking_id : Nat) (bk : Booking),
      db.bookings.find? (fun b => b.id == booking_id) = some bk →
      bk.user_id ≠ u.id →
      delete_booking db u booking_id = (db, Except.error ApiError.notAuthorized) ∧
      ApiError.notAuthorized ≠ ApiError.bookingNotFound ∧
      ApiError.notAuthorized.statusCode ≠ ApiError.bookingNotFound.statusCode ∧
      get_booking none db booking_id = Except.ok bk) ∧
    (∀ (db : DB) (u : User) (booking_id : Nat) (bk : Booking),
      db.bookings.find? (fun b => b.id == booking_id) = some bk →
      bk.user_id = u.id →
      db.bookings.countP (fun b => b.id == booking_id) ≤ 1 →
      delete_booking db u booking_id =
        ({ db with bookings := removeFirst (fun b => b.id == booking_id) db.bookings },
          Except.ok ()) ∧
      get_booking none
        { db with bookings := removeFirst (fun b => b.id == booking_id) db.bookings }
        booking_id = Except.error ApiError.bookingNotFound) := by
  constructor
  · intro db u booking_id bk hfind hnotowner
    refine ⟨?_, by simp, by simp [ApiError.statusCode], ?_⟩
    · simp only [delete_booking, hfind, if_pos hnotowner]
    · simp only [get_booking, hfind]
  · intro db u booking_id bk hfind howner hcount
    have howner' : ¬bk.user_id ≠ u.id := by simp [howner]
    refine ⟨?_, ?_⟩
    · simp only [delete_booking, hfind, if_neg howner']
    · simp only [get_booking, find?_removeFirst_of_countP_le_one _ _ hcount]

/-- Witness for C9: user 8 cannot delete user 7's booking; user 7 can, and
the booking is gone afterwards. -/
theorem delete_owner_only_witness :
    delete_booking dbW ⟨8, "v"⟩ 1 = (dbW, Except.error ApiError.notAuthorized) ∧
    delete_booking dbW user7 1 =
      ({ dbW with bookings := removeFirst (fun b => b.id == 1) dbW.bookings },
        Except.ok ()) ∧
    get_booking none { dbW with bookings := removeFirst (fun b => b.id == 1) dbW.bookings } 1 =
      Except.error ApiError.bookingNotFound := by
  refine ⟨?_, ?_, ?_⟩
  · exact (delete_owner_only.1 dbW ⟨8, "v"⟩ 1 bkA (by decide) (by decide)).1
  · exact (delete_owner_only.2 dbW user7 1 bkA (by decide) (by decide) (by decide)).1
  · exact (delete_owner_only.2 dbW user7 1 bkA (by decide) (by decide) (by decide)).2

/-- Claim C10: the list-bookings and get-booking endpoints take no
authentication dependency and perform no ownership check: the response is
the same for any two requesters — including the anonymous one — and a
successful get returns the stored record itself (with its owner's user_id
and its purpose). -/
theorem read_endpoints_ignore_requester :
    ∀ (db : DB) (booking_id skip limit : Nat) (r1 r2 : Option User),
      get_booking r1 db booking_id = get_booking r2 db booking_id ∧
      get_bookings r1 db skip limit = get_bookings r2 db skip limit ∧
      (∀ b, get_booking r1 db booking_id = Except.ok b →
        b ∈ db.bookings ∧ b.id = booking_id) := by
  intro db booking_id skip limit r1 r2
  refine ⟨rfl, rfl, ?_⟩
  intro b h
  unfold get_booking at h
  cases hf : db.bookings.find? (fun x => x.id == booking_id) with
  | none => rw [hf] at h; exact absurd h (by simp)
  | some b' =>
    rw [hf] at h
    have hb : b' = b := by simpa using h
    subst hb
    exact ⟨List.mem_of_find?_eq_some hf, by simpa using List.find?_some hf⟩

/-- Witness for C10: anonymous and authenticated reads of booking 1
coincide, and the returned record is the stored one. -/
theorem read_endpoints_ignore_requester_witness :
    bkA ∈ dbW.bookings ∧ bkA.id = 1 :=
  (read_endpoints_ignore_requester dbW 1 0 100 none (some user7)).2.2 bkA rfl

/-- Counterexample to C6 as stated: the validator does run on purpose-only
updates — on a stored booking whose start time sits at minute 30, the
owner's purpose-only update is rejected with the validation error instead
of always succeeding. -/
theorem purpose_only_update_counterexample :
    dbMis.bookings.find? (fun b => b.id == 1) = some bkMis ∧
    bkMis.user_id = user7.id ∧
    (update_booking dbMis user7 1 ⟨none, none, some "standup"⟩).2 =
      Except.error ApiError.invalidStartTime := by
  refine ⟨by decide, by decide, ?_⟩
  rfl

/-- Claim C6 (amended): an owner's update that sets only the purpose skips
the overlap check entirely, so it succeeds regardless of any other booking
in the room whenever the booking's own stored start time is hour-aligned
(as every booking created through the API is); the result keeps room_id,
user_id and start_time unchanged, sets the new purpose, and recomputes
end_time as start_time + 1 hour. -/
theorem purpose_only_update (db : DB) (u : User) (booking_id : Nat) (p : String)
    (bk : Booking)
    (hfind : db.bookings.find? (fun b => b.id == booking_id) = some bk)
    (howner : bk.user_id = u.id)
    (hmin : minuteOf bk.start_time = 0) (hsec : secondOf bk.start_time = 0) :
    update_booking db u booking_id ⟨none, none, some p⟩ =
      ({ db with bookings := replaceFirst (fun b => b.id == booking_id) ({ bk with purpose := some p, end_time := bk.start_time + MICROS_PER_HOUR }) db.bookings },
        Except.ok { bk with purpose := some p, end_time := bk.start_time + MICROS_PER_HOUR }) := by
  have howner' : ¬bk.user_id ≠ u.id := by simp [howner]
  have halign : ¬(minuteOf bk.start_time ≠ 0 ∨ secondOf bk.start_time ≠ 0) := by
    simp [hmin, hsec]
  simp only [update_booking, hfind, if_neg howner', Option.getD_none, if_neg halign,
    natTruthy, Option.isSome_none, Bool.or_false, Bool.false_or, if_neg,
    applyBookingUpdate]
  simp

/-- Witness for C6 (amended): a purpose-only update of booking 1 by its
owner succeeds on a database that also holds another booking. -/
theorem purpose_only_update_witness :
    update_booking dbW2 user7 1 ⟨none, none, some "standup"⟩ =
      ({ dbW2 with bookings := replaceFirst (fun b => b.id == 1) ({ bkA with purpose := some "standup", end_time := bkA.start_time + MICROS_PER_HOUR }) dbW2.bookings },
        Except.ok { bkA with purpose := some "standup", end_time := bkA.start_time + MICROS_PER_HOUR }) :=
  purpose_only_update dbW2 user7 1 "standup" bkA (by decide) (by decide)
    (by decide) (by decide)

/-- Claim C4: the routers' create and update logic do establish
`end_time = start_time + 1h` on the record they build, but the `Booking`
ORM model declares no `end_time` column at all, so that value is never
persisted (and the routers' own queries on `Booking.end_time` cannot run
against the model as declared). -/
theorem booking_invariant_vs_model :
    ¬("end_time" ∈ bookingTableColumns) ∧
    (∀ (db : DB) (u : User) (req : BookingCreate) (new_id : Nat) (db' : DB) (b : Booking),
      create_booking db u req new_id = (db', Except.ok b) →
      b.end_time = b.start_time + MICROS_PER_HOUR) ∧
    (∀ (db : DB) (u : User) (booking_id : Nat) (upd : BookingUpdate) (db' : DB) (b : Booking),
      update_booking db u booking_id upd = (db', Except.ok b) →
      b.end_time = b.start_time + MICROS_PER_HOUR) := by
  refine ⟨by decide, ?_, ?_⟩
  · intro db u req new_id db' b h
    cases hroom : db.rooms.find? (fun r => r.id == req.room_id) with
    | none => simp only [create_booking, hroom] at h; simp at h
    | some room =>
      by_cases hcap : room.capacity < req.required_capacity
      · simp only [create_booking, hroom, if_pos hcap] at h; simp at h
      · by_cases halign : minuteOf req.start_time ≠ 0 ∨ secondOf req.start_time ≠ 0
        · simp only [create_booking, hroom, if_neg hcap, if_pos halign] at h; simp at h
        · by_cases hov : (db.bookings.find? (createOverlapFilter req.room_id
              req.start_time (req.start_time + MICROS_PER_HOUR))).isSome
          · simp only [create_booking, hroom, if_neg hcap, if_neg halign, if_pos hov] at h
            simp at h
          · simp only [create_booking, hroom, if_neg hcap, if_neg halign, if_neg hov,
              Prod.mk.injEq] at h
            obtain ⟨-, h2⟩ := h
            obtain h3 := Except.ok.inj h2
            rw [← h3]
  · intro db u booking_id upd db' b h
    cases hfind : db.bookings.find? (fun x => x.id == booking_id) with
    | none => simp only [update_booking, hfind] at h; simp at h
    | some bk =>
      by_cases howner : bk.user_id ≠ u.id
      · simp only [update_booking, hfind, if_pos howner] at h; simp at h
      · by_cases halign : minuteOf (upd.start_time.getD bk.start_time) ≠ 0 ∨
            secondOf (upd.start_time.getD bk.start_time) ≠ 0
        · simp only [update_booking, hfind, if_neg howner, if_pos halign] at h; simp at h
        · by_cases hguard : (natTruthy upd.room_id || upd.start_time.isSome) = true
          · cases hrm : db.rooms.find?
                (fun r => r.id == pyOrNat upd.room_id bk.room_id) with
            | none =>
              simp only [update_booking, hfind, if_neg howner, if_neg halign, hguard,
                if_true, hrm] at h
              simp at h
            | some room =>
              by_cases hov : (db.bookings.find? (updateOverlapFilter
                  (pyOrNat upd.room_id bk.room_id) booking_id
                  (upd.start_time.getD bk.start_time)
                  (upd.start_time.getD bk.start_time + MICROS_PER_HOUR))).isSome
              · simp only [update_booking, hfind, if_neg howner, if_neg halign, hguard,
                  if_true, hrm, if_pos hov] at h
                simp at h
              · simp only [update_booking, hfind, if_neg howner, if_neg halign, hguard,
                  if_true, hrm, if_neg hov, applyBookingUpdate, Prod.mk.injEq] at h
                obtain ⟨-, h2⟩ := h
                obtain h3 := Except.ok.inj h2
                rw [← h3]
          · simp only [update_booking, hfind, if_neg howner, if_neg halign, hguard,
              if_false, applyBookingUpdate, Prod.mk.injEq] at h
            obtain ⟨-, rfl⟩ := h
            rfl

/-- Witness for C4's quantified parts: a concrete successful create yields
a record with `end_time = start_time + 1h`, while the model's column list
still lacks `end_time`. -/
theorem booking_invariant_vs_model_witness :
    ¬("end_time" ∈ bookingTableColumns) ∧
    bkB.end_time = bkB.start_time + MICROS_PER_HOUR :=
  ⟨booking_invariant_vs_model.1,
    booking_invariant_vs_model.2.1 dbW user7 ⟨1, t11, none, 1⟩ 2 dbW2 bkB rfl⟩

/-- Counterexample to C3 as stated: with the fixed-duration invariant
holding, a booking at [9:00, 10:00) and candidate [10:00, 11:00) — the
booking ends exactly at the candidate's start — is counted as a conflict by
the scheduler's start-time filter although the create path's half-open test
finds no conflict, so the two are not equivalent. -/
theorem scheduler_filter_vs_halfopen_counterexample :
    (∀ b ∈ dbW.bookings, b.end_time = b.start_time + MICROS_PER_HOUR) ∧
    dbW.bookings.countP (schedulerConflictFilter 1 t10 t11) ≠ 0 ∧
    dbW.bookings.find? (createOverlapFilter 1 t10 t11) = none := by decide

/-- Claim C3 (amended): under the precondition that every booking in the
room satisfies `end_time = start_time + 1h`, a zero conflict count from the
scheduler's start-time filter implies the create path's half-open test
finds no conflict; the converse fails only for a booking starting exactly
one hour before the candidate start (ending exactly at it), which the
`>=` boundary of the scheduler filter counts although it does not overlap —
when no booking in the room starts exactly at `start − 1h`, the two tests
are equivalent. -/
theorem scheduler_filter_vs_halfopen (bookings : List Booking) (rid : Nat) (s e : Nat)
    (hinv : ∀ b ∈ bookings, b.room_id = rid → b.end_time = b.start_time + MICROS_PER_HOUR) :
    (bookings.countP (schedulerConflictFilter rid s e) = 0 →
      bookings.find? (createOverlapFilter rid s e) = none) ∧
    ((∀ b ∈ bookings, b.room_id = rid →
        (b.start_time : Int) ≠ (s : Int) - (MICROS_PER_HOUR : Int)) →
      (bookings.countP (schedulerConflictFilter rid s e) = 0 ↔
        bookings.find? (createOverlapFilter rid s e) = none)) := by
  have key : ∀ b ∈ bookings, createOverlapFilter rid s e b = true →
      schedulerConflictFilter rid s e b = true := by
    intro b hb hcf
    simp only [createOverlapFilter, Bool.and_eq_true, beq_iff_eq,
      decide_eq_true_eq, gt_iff_lt] at hcf
    obtain ⟨⟨h1, h2⟩, h3⟩ := hcf
    have hend := hinv b hb h1
    simp only [schedulerConflictFilter, Bool.and_eq_true, beq_iff_eq,
      decide_eq_true_eq]
    refine ⟨⟨h1, h2⟩, ?_⟩
    rw [hend] at h3
    omega
  have fwd : bookings.countP (schedulerConflictFilter rid s e) = 0 →
      bookings.find? (createOverlapFilter rid s e) = none := by
    intro hc
    rw [List.countP_eq_zero] at hc
    rw [List.find?_eq_none]
    intro b hb hcf
    exact hc b hb (key b hb hcf)
  refine ⟨fwd, fun hnb => ⟨fwd, ?_⟩⟩
  intro hnone
  rw [List.find?_eq_none] at hnone
  rw [List.countP_eq_zero]
  intro b hb hsf
  simp only [schedulerConflictFilter, Bool.and_eq_true, beq_iff_eq,
    decide_eq_true_eq] at hsf
  obtain ⟨⟨h1, h2⟩, h3⟩ := hsf
  have hend := hinv b hb h1
  have hb2 := hnb b hb h1
  apply hnone b hb
  simp only [createOverlapFilter, Bool.and_eq_true, beq_iff_eq,
    decide_eq_true_eq, gt_iff_lt]
  refine ⟨⟨h1, h2⟩, ?_⟩
  rw [hend]
  omega

/-- Witness for C3 (amended): for candidate [9:00, 10:00) against bookings
at [9:00, 10:00) and [11:00, 12:00) — none starting at 8:00 — the two
tests agree. -/
theorem scheduler_filter_vs_halfopen_witness :
    dbW2.bookings.countP (schedulerConflictFilter 1 t9 t10) = 0 ↔
      dbW2.bookings.find? (createOverlapFilter 1 t9 t10) = none :=
  (scheduler_filter_vs_halfopen dbW2.bookings 1 t9 t10 (by decide)).2 (by decide)

/-- Helper: starting the selection loop from an already-chosen room, the
result never has larger capacity than that room. -/
theorem forl_le_acc (db : DB) (s e : Nat) :
    ∀ (l : List Room) (a r : Room),
      find_optimal_room_loop db s e l (some a) = some r → r.capacity ≤ a.capacity := by
  intro l
  induction l with
  | nil =>
    intro a r h
    simp only [find_optimal_room_loop] at h
    rw [Option.some.inj h]
  | cons room rest ih =>
    intro a r h
    simp only [find_optimal_room_loop] at h
    split at h
    · rename_i ht
      have hlt : room.capacity < a.capacity := by
        have := (Bool.and_eq_true _ _).mp ht
        simpa using this.2
      exact le_of_lt (lt_of_le_of_lt (ih room r h) hlt)
    · exact ih a r h

/-- Helper: the selection loop's result has minimal capacity among the
conflict-free rooms of the remaining list. -/
theorem forl_min (db : DB) (s e : Nat) :
    ∀ (l : List Room) (acc : Option Room) (r' : Room),
      r' ∈ l → db.bookings.countP (schedulerConflictFilter r'.id s e) = 0 →
      ∀ r, find_optimal_room_loop db s e l acc = some r → r.capacity ≤ r'.capacity := by
  intro l
  induction l with
  | nil =>
    intro acc r' hmem
    exact absurd hmem (List.not_mem_nil r')
  | cons room rest ih =>
    intro acc r' hmem hconf r h
    simp only [find_optimal_room_loop] at h
    rcases List.mem_cons.mp hmem with heq | hmem'
    · subst heq
      cases acc with
      | none =>
        rw [if_pos (by simp [hconf])] at h
        exact forl_le_acc db s e rest r' r h
      | some cur =>
        by_cases hlt : r'.capacity < cur.capacity
        · rw [if_pos (by simp [hconf, hlt])] at h
          exact forl_le_acc db s e rest r' r h
        · rw [if_neg (by simp [hconf, hlt])] at h
          exact le_trans (forl_le_acc db s e rest cur r h) (le_of_not_lt hlt)
    · split at h
      · exact ih (some room) r' hmem' hconf r h
      · exact ih acc r' hmem' hconf r h

/-- Helper: the selection loop returns `none` exactly when it started with
no choice and every room of the list has a nonzero conflict count. -/
theorem forl_none (db : DB) (s e : Nat) :
    ∀ (l : List Room) (acc : Option Room),
      find_optimal_room_loop db s e l acc = none ↔
        acc = none ∧ ∀ r ∈ l,
          db.bookings.countP (schedulerConflictFilter r.id s e) ≠ 0 := by
  intro l
  induction l with
  | nil =>
    intro acc
    simp [find_optimal_room_loop]
  | cons room rest ih =>
    intro acc
    simp only [find_optimal_room_loop]
    by_cases hc : db.bookings.countP (schedulerConflictFilter room.id s e) = 0
    · cases acc with
      | none =>
        rw [if_pos (by simp [hc]), ih (some room)]
        constructor
        · rintro ⟨h1, -⟩
          exact absurd h1 (by simp)
        · rintro ⟨-, hall⟩
          exact absurd hc (hall room (List.mem_cons_self room rest))
      | some cur =>
        by_cases hlt : room.capacity < cur.capacity
        · rw [if_pos (by simp [hc, hlt]), ih (some room)]
          constructor
          · rintro ⟨h1, -⟩
            exact absurd h1 (by simp)
          · rintro ⟨-, hall⟩
            exact absurd hc (hall room (List.mem_cons_self room rest))
        · rw [if_neg (by simp [hc, hlt]), ih (some cur)]
          constructor
          · rintro ⟨h1, -⟩
            exact absurd h1 (by simp)
          · rintro ⟨h1, -⟩
            exact absurd h1 (by simp)
    · rw [if_neg (by simp [hc]), ih acc]
      constructor
      · rintro ⟨h1, h2⟩
        refine ⟨h1, ?_⟩
        intro r hr
        rcases List.mem_cons.mp hr with rfl | hr'
        · exact hc
        · exact h2 r hr'
      · rintro ⟨h1, h2⟩
        exact ⟨h1, fun r hr => h2 r (List.mem_cons_of_mem room hr)⟩

/-- Helper: the selection loop's result is either its accumulator or a
conflict-free member of the list. -/
theorem forl_origin (db : DB) (s e : Nat) :
    ∀ (l : List Room) (acc : Option Room),
      find_optimal_room_loop db s e l acc = acc ∨
        ∃ r ∈ l, find_optimal_room_loop db s e l acc = some r ∧
          db.bookings.countP (schedulerConflictFilter r.id s e) = 0 := by
  intro l
  induction l with
  | nil =>
    intro acc
    left
    simp [find_optimal_room_loop]
  | cons room rest ih =>
    intro acc
    simp only [find_optimal_room_loop]
    split
    · rename_i ht
      have hc0 : db.bookings.countP (schedulerConflictFilter room.id s e) = 0 := by
        have := (Bool.and_eq_true _ _).mp ht
        simpa using this.1
      rcases ih (some room) with h | ⟨r, hr, hres, hcr⟩
      · right
        exact ⟨room, List.mem_cons_self room rest, h, hc0⟩
      · right
        exact ⟨r, List.mem_cons_of_mem room hr, hres, hcr⟩
    · rcases ih acc with h | ⟨r, hr, hres, hcr⟩
      · left
        exact h
      · right
        exact ⟨r, List.mem_cons_of_mem room hr, hres, hcr⟩

/-- Counterexample to C2 as stated: room 2 (capacity 5) is eligible for
required capacity 3 and — under the half-open test — conflict-free for
candidate [10:00, 11:00), its only booking ending exactly at 10:00; yet
`find_optimal_room` returns `None` because its start-time filter counts
that booking as a conflict. -/
theorem find_optimal_room_counterexample :
    find_optimal_room dbC2 t10 t11 3 = Except.ok none ∧
    (∀ b ∈ dbC2.bookings, b.end_time = b.start_time + MICROS_PER_HOUR) ∧
    (∃ r ∈ dbC2.rooms, (3 : Int) ≤ r.capacity ∧
      ∀ b ∈ dbC2.bookings,
        ¬(b.room_id = r.id ∧ b.start_time < t11 ∧ t10 < b.end_time)) :=
  ⟨rfl, by decide, by decide⟩

/-- Claim C2 (amended): for an hour-aligned candidate start,
`find_optimal_room` never returns a room of insufficient capacity; a
returned room has a zero conflict count under the scheduler's start-time
filter — hence, when every booking satisfies `end = start + 1h`, no
half-open-overlapping booking — and minimal capacity among the
sufficient-capacity rooms with a zero count; and it returns `None` exactly
when every sufficient-capacity room has a nonzero count (which can happen
even though a room free of half-open conflicts exists, namely when its only
booking ends exactly at the candidate start). -/
theorem find_optimal_room_spec (db : DB) (s e : Nat) (required_capacity : Int)
    (hmin : minuteOf s = 0) (hsec : secondOf s = 0) (hmicro : microsecondOf s = 0) :
    (∀ room, find_optimal_room db s e required_capacity = Except.ok (some room) →
      room ∈ db.rooms ∧ required_capacity ≤ room.capacity ∧
      db.bookings.countP (schedulerConflictFilter room.id s e) = 0 ∧
      ((∀ b ∈ db.bookings, b.end_time = b.start_time + MICROS_PER_HOUR) →
        ∀ b ∈ db.bookings, b.room_id = room.id →
          ¬(b.start_time < e ∧ s < b.end_time)) ∧
      (∀ r' ∈ db.rooms, required_capacity ≤ r'.capacity →
        db.bookings.countP (schedulerConflictFilter r'.id s e) = 0 →
        room.capacity ≤ r'.capacity)) ∧
    (find_optimal_room db s e required_capacity = Except.ok none ↔
      ∀ r' ∈ db.rooms, required_capacity ≤ r'.capacity →
        db.bookings.countP (schedulerConflictFilter r'.id s e) ≠ 0) := by
  have halign : ¬(minuteOf s ≠ 0 ∨ secondOf s ≠ 0 ∨ microsecondOf s ≠ 0) := by
    simp [hmin, hsec, hmicro]
  constructor
  · intro room h
    simp only [find_optimal_room, if_neg halign] at h
    have hloop := Except.ok.inj h
    rcases forl_origin db s e
        (db.rooms.filter (fun r => decide (r.capacity ≥ required_capacity))) none with
      horig | ⟨r, hr, hres, hc⟩
    · rw [horig] at hloop
      exact absurd hloop (by simp)
    · rw [hres] at hloop
      obtain rfl := Option.some.inj hloop
      have hmemfil := List.mem_filter.mp hr
      have hcap : required_capacity ≤ r.capacity := by simpa using hmemfil.2
      refine ⟨hmemfil.1, hcap, hc, ?_, ?_⟩
      · rintro hinvar b hb hbroom ⟨hlt1, hlt2⟩
        rw [List.countP_eq_zero] at hc
        apply hc b hb
        simp only [schedulerConflictFilter, Bool.and_eq_true, beq_iff_eq,
          decide_eq_true_eq]
        refine ⟨⟨hbroom, hlt1⟩, ?_⟩
        rw [hinvar b hb] at hlt2
        omega
      · intro r' hr' hcap' hconf'
        exact forl_min db s e _ none r'
          (List.mem_filter.mpr ⟨hr', by simpa using hcap'⟩) hconf' r hres
  · simp only [find_optimal_room, if_neg halign]
    constructor
    · intro h
      have hloop := Except.ok.inj h
      rw [forl_none] at hloop
      intro r' hr' hcap'
      exact hloop.2 r' (List.mem_filter.mpr ⟨hr', by simpa using hcap'⟩)
    · intro h
      have hloop : find_optimal_room_loop db s e
          (db.rooms.filter (fun r => decide (r.capacity ≥ required_capacity))) none = none := by
        rw [forl_none]
        refine ⟨rfl, fun r hr => ?_⟩
        have hm := List.mem_filter.mp hr
        exact h r hm.1 (by simpa using hm.2)
      rw [hloop]

/-- Witness for C2 (amended): with rooms of capacity 10 and 5 and a
conflict in room 1, the selector picks the smaller free room 2, which is
eligible and conflict-count-free. -/
theorem find_optimal_room_spec_witness :
    room2 ∈ dbW3.rooms ∧ (3 : Int) ≤ room2.capacity ∧
    dbW3.bookings.countP (schedulerConflictFilter room2.id t9 t10) = 0 :=
  have h := (find_optimal_room_spec dbW3 t9 t10 3 (by decide) (by decide)
    (by decide)).1 room2 rfl
  ⟨h.1, h.2.1, h.2.2.1⟩

/-- Helper: sorting a one-element list of bookings is the identity. -/
theorem sortByStart_singleton (b : Booking) : sortByStart [b] = [b] := rfl

/-- Helper: one unfolding step of the availability sweep over a first
booking. -/
theorem sweepSlots_cons (delta day_end current_time : Nat) (b : Booking)
    (rest : List Booking) :
    sweepSlots delta day_end current_time (b :: rest) =
      (emitSlots delta current_time b.start_time).1 ++
        sweepSlots delta day_end
          (max (emitSlots delta current_time b.start_time).2 b.end_time) rest := rfl

/-- Counterexample to C5 as stated: the code's business window is 8 AM to
6 PM — ten hours, not eight — so a room with zero bookings yields exactly
10 slots of 60 minutes, not 8. -/
theorem get_available_slots_counterexample :
    get_available_slots user7 dbS 1 0 60 = Except.ok tenSlots ∧
    tenSlots.length = 10 ∧ ¬tenSlots.length = 8 :=
  ⟨rfl, rfl, by decide⟩

/-- Claim C5 (amended): over the code's ten-hour window (8 AM - 6 PM of
day 0) with 60-minute slots, a room with zero bookings in the window yields
exactly the ten hourly slots in ascending order; one booking covering the
10:00-11:00 and 11:00-12:00 slots removes exactly those two from the
output, preserving the ascending order of the remaining eight. -/
theorem get_available_slots_window (db : DB) (u : User) (rid : Nat) (room : Room)
    (hroom : db.rooms.find? (fun r => r.id == rid) = some room) :
    (db.bookings.filter (slotsWindowFilter rid 28800000000 64800000000) = [] →
      get_available_slots u db rid 0 60 = Except.ok tenSlots) ∧
    (∀ bk : Booking,
      db.bookings.filter (slotsWindowFilter rid 28800000000 64800000000) = [bk] →
      bk.start_time = 36000000000 → bk.end_time = 43200000000 →
      get_available_slots u db rid 0 60 = Except.ok eightSlots) ∧
    eightSlots = tenSlots.take 2 ++ tenSlots.drop 4 ∧
    tenSlots.length = 10 ∧ eightSlots.length = 8 ∧
    List.Chain' (fun a b => a.1 < b.1) tenSlots ∧
    List.Chain' (fun a b => a.1 < b.1) eightSlots := by
  refine ⟨?_, ?_, by decide, rfl, rfl,
    by norm_num [tenSlots, List.chain'_cons, List.chain'_singleton],
    by norm_num [eightSlots, List.chain'_cons, List.chain'_singleton]⟩
  · intro hfilter
    simp only [get_available_slots, hroom]
    norm_num [MICROS_PER_DAY, MICROS_PER_HOUR, MICROS_PER_MINUTE]
    rw [hfilter]
    decide
  · intro bk hfilter hs he
    simp only [get_available_slots, hroom]
    norm_num [MICROS_PER_DAY, MICROS_PER_HOUR, MICROS_PER_MINUTE]
    rw [hfilter, sortByStart_singleton, sweepSlots_cons, hs, he]
    decide

/-- Witness for C5 (amended): a database with no booking yields the ten
slots; one with the single 10:00-12:00 booking yields the eight. -/
theorem get_available_slots_window_witness :
    get_available_slots user7 dbS 1 0 60 = Except.ok tenSlots ∧
    get_available_slots user7 dbS4 1 0 60 = Except.ok eightSlots :=
  ⟨(get_available_slots_window dbS user7 1 room1 (by decide)).1 rfl,
    (get_available_slots_window dbS4 user7 1 room1 (by decide)).2.1 bkMid rfl rfl rfl⟩

end RoomBooking
